import Mathlib

set_option maxHeartbeats 1000000

/-!
Shallow embedding of the Real-Time Voice Session Orchestrator of the
Talking-Jerry repository (src/unnamed/part_000, an App component, together
with src/types.ts).  The mutable React refs and state hooks become fields of
an explicit `AppState`; each callback of the source becomes a function on
that state; the single-threaded, run-to-completion event loop becomes a
`step` function folded over a list of events.
-/

namespace TalkingJerry

/-- Conversation states, from src/types.ts `GameState`. -/
inductive GameState where
  | PRE_GAME
  | GREETING
  | CONNECTING
  | LISTENING
  | THINKING
  | TALKING
  | IDLE
deriving DecidableEq, Repr

/-- Conversation modes, from src/types.ts `GameMode`. -/
inductive GameMode where
  | AI
  | MIMIC
deriving DecidableEq, Repr

/-- One entry of `message.toolCall.functionCalls`: its function name, call id,
and the `args.reaction` argument.  The reaction is kept as a raw string
because the source casts it unchecked (`fc.args.reaction as JerryReaction`). -/
structure FunctionCall where
  name : String
  id : String
  reaction : String
deriving DecidableEq, Repr

/-- An inbound server message, restricted to the fields the `onmessage`
handler of the source reads.  `audioDur` is `some d` when
`serverContent.modelTurn.parts[0].inlineData.data` is present, `d` being the
duration of the decoded audio buffer. -/
structure ServerMessage where
  toolCall : Option (List FunctionCall) := none
  outputTranscription : Option String := none
  inputTranscription : Option String := none
  turnComplete : Bool := false
  audioDur : Option ℤ := none
  interrupted : Bool := false
deriving DecidableEq, Repr

/-- The whole mutable state of the App component: React `useState` hooks and
`useRef` refs.  `sourceLog` and `sentAcks` are observation logs: `sourceLog`
records every `source.start(t)` call as (start time, buffer duration), and
`sentAcks` records the id of every `sendToolResponse` acknowledgment, in
order. -/
structure AppState where
  gameState : GameState
  gameMode : GameMode
  jerryReaction : String
  userTranscript : String
  jerryTranscript : String
  errorMsg : Option String
  userName : String
  userAge : String
  sessionOpen : Bool
  opened : Bool
  captureActive : Bool
  micHeld : Bool
  inputCtxOpen : Bool
  outputCtxOpen : Bool
  nextStartTime : ℤ
  audioSources : List ℕ
  nextSourceId : ℕ
  sourceLog : List (ℤ × ℤ)
  currentInputTranscription : String
  currentOutputTranscription : String
  sentAcks : List String
deriving DecidableEq, Repr

/-- The initial state of the component: all hooks at their `useState`
initial values, all refs null/zero/empty. -/
def initState : AppState :=
  { gameState := .PRE_GAME
    gameMode := .AI
    jerryReaction := "idle"
    userTranscript := ""
    jerryTranscript := ""
    errorMsg := none
    userName := ""
    userAge := ""
    sessionOpen := false
    opened := false
    captureActive := false
    micHeld := false
    inputCtxOpen := false
    outputCtxOpen := false
    nextStartTime := 0
    audioSources := []
    nextSourceId := 0
    sourceLog := []
    currentInputTranscription := ""
    currentOutputTranscription := ""
    sentAcks := [] }

/-- Whitespace test of JS String.prototype.trim, restricted to the ASCII
whitespace characters that occur in this development. -/
def isJsWhitespace (c : Char) : Bool :=
  c = ' ' ∨ c = '\t' ∨ c = '\n' ∨ c = '\r'

/-- JS String.prototype.trim: strip leading and trailing whitespace.
Embedded structurally so that concrete runs evaluate. -/
def jsTrim (s : String) : String :=
  ⟨((s.data.dropWhile isJsWhitespace).reverse.dropWhile isJsWhitespace).reverse⟩

/-- `stopAudioProcessing(isExiting)` of the source: close the session, stop
the capture pipeline, release the microphone, close the input context, stop
and clear every active playback source and close the output context; when
exiting additionally reset reaction, both display transcripts, both pending
accumulators and the error message.  (The sfx context, presentation only, is
not modelled.)  Note `nextStartTimeRef` is NOT reset here, as in the
source. -/
def stopAudioProcessing (isExiting : Bool) (s : AppState) : AppState :=
  let s := { s with sessionOpen := false, opened := false }
  let s := { s with captureActive := false }
  let s := { s with micHeld := false }
  let s := { s with inputCtxOpen := false }
  let s := if s.outputCtxOpen then
    { s with audioSources := [], outputCtxOpen := false } else s
  if isExiting then
    { s with jerryReaction := "idle", userTranscript := "", jerryTranscript := "",
             currentInputTranscription := "", currentOutputTranscription := "",
             errorMsg := none }
  else s

/-- Body of the `for (const fc of message.toolCall.functionCalls)` loop: when
the name is `setJerrysReaction`, store the raw reaction string and queue one
`sendToolResponse` acknowledgment for the call id (sent through the session
promise, hence only when the session ref is non-null). -/
def applyFunctionCall (s : AppState) (fc : FunctionCall) : AppState :=
  if fc.name = "setJerrysReaction" then
    { s with jerryReaction := fc.reaction,
             sentAcks := if s.sessionOpen then s.sentAcks ++ [fc.id] else s.sentAcks }
  else s

/-- The output-else-input transcription branch of `onmessage`: when both
fragments are present only the character (output) one is processed. -/
def handleTranscriptionPhase (m : ServerMessage) (s : AppState) : AppState :=
  match m.outputTranscription with
  | some text =>
      { s with currentOutputTranscription := s.currentOutputTranscription ++ text,
               jerryTranscript := s.currentOutputTranscription ++ text }
  | none =>
      match m.inputTranscription with
      | some text =>
          { s with currentInputTranscription := s.currentInputTranscription ++ text,
                   userTranscript := s.currentInputTranscription ++ text }
      | none => s

/-- The turn-completion branch of `onmessage`: THINKING and the thinking
reaction when pending user text is non-blank, then a trailing separator on
both display transcripts and both pending accumulators cleared. -/
def handleTurnCompletePhase (m : ServerMessage) (s : AppState) : AppState :=
  if m.turnComplete then
    let s :=
      if 0 < (jsTrim s.currentInputTranscription).length then
        { s with gameState := .THINKING, jerryReaction := "thinking" }
      else s
    { s with userTranscript := s.userTranscript ++ " ",
             jerryTranscript := s.jerryTranscript ++ " ",
             currentInputTranscription := "",
             currentOutputTranscription := "" }
  else s

/-- The audio-delta and interruption branches of `onmessage`.  On an audio
delta the state is set to TALKING first; when the output context ref is null
the handler then returns early, skipping the interruption branch too.
Otherwise the buffer is scheduled at `max nextStart deviceTime`, `nextStart`
advances by the duration and a fresh source joins the active set. -/
def handleAudioPhase (deviceTime : ℤ) (m : ServerMessage) (s : AppState) : AppState :=
  match m.audioDur with
  | some d =>
      let s := { s with gameState := .TALKING }
      if s.outputCtxOpen then
        let startTime := max s.nextStartTime deviceTime
        let s := { s with sourceLog := s.sourceLog ++ [(startTime, d)],
                          nextStartTime := startTime + d,
                          audioSources := s.audioSources ++ [s.nextSourceId],
                          nextSourceId := s.nextSourceId + 1 }
        if m.interrupted then
          { s with audioSources := [], nextStartTime := 0 }
        else s
      else s
  | none =>
      if m.interrupted then
        { s with audioSources := [], nextStartTime := 0 }
      else s

/-- The `onmessage` callback of the live session, in source order: tool
calls, then output-else-input transcription, then turn completion, then the
audio delta and the interruption check. -/
def onMessage (deviceTime : ℤ) (m : ServerMessage) (s : AppState) : AppState :=
  handleAudioPhase deviceTime m
    (handleTurnCompletePhase m
      (handleTranscriptionPhase m
        ((m.toolCall.getD []).foldl applyFunctionCall s)))

/-- `handleToggleConversation(isAutoStart)`: when invoked by the user while
not idle, tear down (reaction and transcripts included); otherwise run the
start sequence — clear the error, enter CONNECTING, check the credential
(throwing into the catch block when absent, before any resource is
acquired), open the input context, open the output context if needed,
request the microphone (catch on denial), and start connecting the session.
`apiKeyPresent` models `process.env.API_KEY` and `micAvailable` the outcome
of `getUserMedia`. -/
def handleToggleConversation (apiKeyPresent micAvailable : Bool)
    (isAutoStart : Bool) (s : AppState) : AppState :=
  if ¬isAutoStart ∧ s.gameState ≠ .IDLE then
    let s := { s with gameState := .IDLE, jerryReaction := "idle" }
    let s := stopAudioProcessing false s
    { s with userTranscript := "", jerryTranscript := "",
             currentInputTranscription := "", currentOutputTranscription := "" }
  else
    let s := { s with errorMsg := none, gameState := .CONNECTING }
    if ¬apiKeyPresent then
      let s := { s with errorMsg := some "API_KEY environment variable not set.",
                        gameState := .IDLE }
      stopAudioProcessing false s
    else
      let s := { s with inputCtxOpen := true }
      let s := if s.outputCtxOpen then s else { s with outputCtxOpen := true }
      if ¬micAvailable then
        let s := { s with errorMsg := some "Media access denied.",
                          gameState := .IDLE }
        stopAudioProcessing false s
      else
        let s := { s with micHeld := true }
        { s with sessionOpen := true, opened := false }

/-- `playGreeting(name)`: credential check first (before the output context
is created); on absence the catch block records the greeting error and
auto-starts the main conversation; on success the output context is opened,
the reaction set to mimicking and the state to GREETING — the greeting
request itself completes later (the `greetingDone` event). -/
def playGreeting (apiKeyPresent micAvailable : Bool) (s : AppState) : AppState :=
  if ¬apiKeyPresent then
    let s := { s with errorMsg := some "Greeting failed. Starting conversation anyway." }
    handleToggleConversation apiKeyPresent micAvailable true s
  else
    { s with outputCtxOpen := true, jerryReaction := "mimicking",
             gameState := .GREETING }

/-- `handleStartGame(name, age, mode)`: reject a blank name or an empty age
selection with a validation error; otherwise record identity and mode, clear
the error and play the greeting. -/
def handleStartGame (apiKeyPresent micAvailable : Bool)
    (name age : String) (mode : GameMode) (s : AppState) : AppState :=
  if jsTrim name = "" ∨ age = "" then
    { s with errorMsg := some "Please fill out all fields." }
  else
    let s := { s with userName := name, userAge := age, gameMode := mode,
                      errorMsg := none }
    playGreeting apiKeyPresent micAvailable s

/-- `handleExitGame`: full teardown with `isExiting = true`, then back to the
intro screen. -/
def handleExitGame (s : AppState) : AppState :=
  let s := stopAudioProcessing true s
  { s with gameState := .PRE_GAME }

/-- The `onopen` callback: enter LISTENING and connect the
mediaStreamSource/scriptProcessor capture chain. -/
def onOpen (s : AppState) : AppState :=
  { s with gameState := .LISTENING, opened := true, captureActive := true }

/-- The per-source `ended` listener: remove the source from the active set;
when the set drains, return to LISTENING with the idle reaction. -/
def onSourceEnded (id : ℕ) (s : AppState) : AppState :=
  let rest := s.audioSources.erase id
  if rest = [] then
    { s with audioSources := rest, gameState := .LISTENING, jerryReaction := "idle" }
  else
    { s with audioSources := rest }

/-- The `onerror` callback: record the error, enter IDLE, tear down with
`isExiting = false`. -/
def onError (s : AppState) : AppState :=
  let s := { s with errorMsg := some "An error occurred. Please try again.",
                    gameState := .IDLE }
  stopAudioProcessing false s

/-- The `onclose` callback: enter IDLE, tear down with `isExiting = false`. -/
def onClose (s : AppState) : AppState :=
  let s := { s with gameState := .IDLE }
  stopAudioProcessing false s

/-- The discrete events of the single-threaded event loop: the three UI
intents, completion of the one-shot greeting request, the session callbacks
(`onopen`, `onmessage`, `onerror`, `onclose`) and the per-source `ended`
callback.  A message carries the output-device current time at which it is
handled. -/
inductive Ev where
  | startGame (name age : String) (mode : GameMode)
  | greetingDone
  | toggle
  | exitGame
  | connected
  | msg (deviceTime : ℤ) (m : ServerMessage)
  | sourceEnded (id : ℕ)
  | errorEv
  | closeEv
deriving DecidableEq, Repr

/-- One run-to-completion handler dispatch.  Guards encode the wiring of the
source: `startGame` comes from the intro screen (shown only in PRE_GAME),
`toggle` and `exitGame` from the game screen (any other state),
`greetingDone` resolves the greeting request issued in GREETING, and the
session callbacks fire only for the live session (`onopen` once, messages
only after open). -/
def step (apiKeyPresent micAvailable : Bool) (s : AppState) (e : Ev) : AppState :=
  match e with
  | .startGame name age mode =>
      if s.gameState = .PRE_GAME then
        handleStartGame apiKeyPresent micAvailable name age mode s
      else s
  | .greetingDone =>
      if s.gameState = .GREETING then
        handleToggleConversation apiKeyPresent micAvailable true s
      else s
  | .toggle =>
      if s.gameState ≠ .PRE_GAME then
        handleToggleConversation apiKeyPresent micAvailable false s
      else s
  | .exitGame =>
      if s.gameState ≠ .PRE_GAME then handleExitGame s else s
  | .connected =>
      if s.sessionOpen ∧ ¬s.opened then onOpen s else s
  | .msg t m =>
      if s.sessionOpen ∧ s.opened then onMessage t m s else s
  | .sourceEnded id =>
      if id ∈ s.audioSources then onSourceEnded id s else s
  | .errorEv =>
      if s.sessionOpen then onError s else s
  | .closeEv =>
      if s.sessionOpen then onClose s else s

/-- A whole execution: fold the event handlers over the arrival order. -/
def run (apiKeyPresent micAvailable : Bool) (evs : List Ev) : AppState :=
  evs.foldl (step apiKeyPresent micAvailable) initState

/-- The playback-scheduling recurrence of the audio-delta branch: for each
buffer, `startTime = max nextStart deviceTime`, then
`nextStart = startTime + duration`; returns the (start, duration) pairs in
schedule order. -/
def scheduleRun : ℤ → List (ℤ × ℤ) → List (ℤ × ℤ)
  | _, [] => []
  | nextStart, (t, d) :: rest =>
      let startTime := max nextStart t
      (startTime, d) :: scheduleRun (startTime + d) rest

/-- A message carrying only an audio delta of duration `d`. -/
def audioMsg (d : ℤ) : ServerMessage := { audioDur := some d }

/-- The event list of a sequence of audio deltas, each paired with the
device time at which it is handled. -/
def audioEvents (l : List (ℤ × ℤ)) : List Ev :=
  l.map (fun p => Ev.msg p.1 (audioMsg p.2))

/-- Whether an event is an inbound message carrying an audio delta. -/
def isAudioDelta : Ev → Bool
  | .msg _ m => m.audioDur.isSome
  | _ => false

/-- A message carrying only a turn-completion flag. -/
def turnCompleteMsg : ServerMessage := { turnComplete := true }

/-- A message carrying only an interruption flag. -/
def interruptedMsg : ServerMessage := { interrupted := true }

/-- The tool-call loop only ever writes `jerryReaction` and `sentAcks`. -/
theorem foldl_applyFunctionCall_shape (l : List FunctionCall) (s : AppState) :
    ∃ r a, l.foldl applyFunctionCall s
      = { s with jerryReaction := r, sentAcks := a } := by
  induction l generalizing s with
  | nil => exact ⟨s.jerryReaction, s.sentAcks, rfl⟩
  | cons fc rest ih =>
      obtain ⟨r, a, h⟩ := ih (applyFunctionCall s fc)
      refine ⟨r, a, ?_⟩
      rw [List.foldl_cons, h]
      unfold applyFunctionCall
      split <;> rfl

/-- The first scheduled start of a run is at least the incoming clock value. -/
theorem scheduleRun_head_le (ns : ℤ) (l : List (ℤ × ℤ)) (x : ℤ × ℤ)
    (hx : (scheduleRun ns l).head? = some x) : ns ≤ x.1 := by
  cases l with
  | nil => simp [scheduleRun] at hx
  | cons p rest =>
      obtain ⟨t, d⟩ := p
      simp [scheduleRun] at hx
      rw [← hx]
      exact le_max_left _ _

/-- Adjacent scheduled units satisfy the gapless ordering: each start is at
least the previous start, and at least the previous start plus the previous
duration, whenever durations are nonnegative. -/
theorem scheduleRun_chain (ns : ℤ) (l : List (ℤ × ℤ))
    (hd : ∀ p ∈ l, 0 ≤ p.2) :
    List.Chain' (fun a b : ℤ × ℤ => a.1 ≤ b.1 ∧ a.1 + a.2 ≤ b.1)
      (scheduleRun ns l) := by
  induction l generalizing ns with
  | nil => simp [scheduleRun]
  | cons p rest ih =>
      obtain ⟨t, d⟩ := p
      have hd0 : 0 ≤ d := hd (t, d) (by simp)
      have hrest : ∀ q ∈ rest, 0 ≤ q.2 := fun q hq => hd q (by simp [hq])
      refine List.chain'_cons'.mpr ⟨?_, ih _ hrest⟩
      intro y hy
      have h1 : max ns t + d ≤ y.1 := scheduleRun_head_le _ _ _ hy
      constructor
      · calc (max ns t, d).1 ≤ max ns t + d := by simpa using hd0
          _ ≤ y.1 := h1
      · simpa using h1

/-- One audio-delta message, handled with the session open and the output
context live, performs exactly the scheduling assignment of the source:
start at `max nextStart deviceTime`, advance `nextStart` by the duration,
log the start, and add a fresh source to the active set. -/
theorem step_audioMsg (ek mic : Bool) (s : AppState) (t d : ℤ)
    (hs : s.sessionOpen = true) (ho : s.opened = true)
    (hc : s.outputCtxOpen = true) :
    step ek mic s (Ev.msg t (audioMsg d)) =
      { s with gameState := .TALKING,
               sourceLog := s.sourceLog ++ [(max s.nextStartTime t, d)],
               nextStartTime := max s.nextStartTime t + d,
               audioSources := s.audioSources ++ [s.nextSourceId],
               nextSourceId := s.nextSourceId + 1 } := by
  simp [step, hs, ho, onMessage, handleTranscriptionPhase, handleTurnCompletePhase, handleAudioPhase, audioMsg, hc]

/-- Folding a sequence of audio-delta events appends exactly the schedule of
`scheduleRun` to the source log. -/
theorem foldl_audioEvents_sourceLog (ek mic : Bool) (s : AppState)
    (l : List (ℤ × ℤ)) (hs : s.sessionOpen = true) (ho : s.opened = true)
    (hc : s.outputCtxOpen = true) :
    ((audioEvents l).foldl (step ek mic) s).sourceLog
      = s.sourceLog ++ scheduleRun s.nextStartTime l := by
  induction l generalizing s with
  | nil => simp [audioEvents, scheduleRun]
  | cons p rest ih =>
      obtain ⟨t, d⟩ := p
      rw [audioEvents, List.map_cons, List.foldl_cons,
          step_audioMsg ek mic s t d hs ho hc]
      rw [show (List.map (fun p => Ev.msg p.1 (audioMsg p.2)) rest) = audioEvents rest from rfl]
      rw [ih { s with gameState := .TALKING,
                      sourceLog := s.sourceLog ++ [(max s.nextStartTime t, d)],
                      nextStartTime := max s.nextStartTime t + d,
                      audioSources := s.audioSources ++ [s.nextSourceId],
                      nextSourceId := s.nextSourceId + 1 } hs ho hc]
      simp [scheduleRun]

/-- A concrete execution reaching the LISTENING state of an open session:
valid start intent, greeting finished, transport open. -/
def listenEvs : List Ev :=
  [Ev.startGame "Alex" "10-18" GameMode.AI, Ev.greetingDone, Ev.connected]

/-- `listenEvs` extended by one inbound user transcription fragment, so the
pending user accumulator is non-empty. -/
def pendingEvs : List Ev :=
  listenEvs ++ [Ev.msg 0 { inputTranscription := some "hello" }]

/-- C1: for every sequence of audio-delta events handled while a session is
open, each new buffer is scheduled to start at `max nextStart deviceTime`
and `nextStart` then advances by the duration of that buffer, so the logged
start times are non-decreasing and each unit starts no earlier than the
start of the previous unit plus its duration. -/
theorem audio_delta_schedule_gapless (ek mic : Bool) (s : AppState)
    (l : List (ℤ × ℤ)) (hs : s.sessionOpen = true) (ho : s.opened = true)
    (hc : s.outputCtxOpen = true) (hd : ∀ p ∈ l, 0 ≤ p.2) :
    ((audioEvents l).foldl (step ek mic) s).sourceLog
        = s.sourceLog ++ scheduleRun s.nextStartTime l
    ∧ List.Chain' (fun a b : ℤ × ℤ => a.1 ≤ b.1 ∧ a.1 + a.2 ≤ b.1)
        (scheduleRun s.nextStartTime l) :=
  ⟨foldl_audioEvents_sourceLog ek mic s l hs ho hc, scheduleRun_chain _ l hd⟩

/-- Witness for C1 at a concrete open-session state and three buffers. -/
theorem audio_delta_schedule_gapless_witness :
    ((audioEvents [(1, 2), (0, 3), (10, 1)]).foldl (step true true)
        (run true true listenEvs)).sourceLog
      = (run true true listenEvs).sourceLog
        ++ scheduleRun (run true true listenEvs).nextStartTime [(1, 2), (0, 3), (10, 1)]
    ∧ List.Chain' (fun a b : ℤ × ℤ => a.1 ≤ b.1 ∧ a.1 + a.2 ≤ b.1)
        (scheduleRun (run true true listenEvs).nextStartTime [(1, 2), (0, 3), (10, 1)]) :=
  audio_delta_schedule_gapless true true (run true true listenEvs)
    [(1, 2), (0, 3), (10, 1)] (by decide) (by decide) (by decide) (by decide)

/-- C4: on a turn-complete event, if the pending user text is non-empty the
state machine moves to THINKING and the reaction to thinking; in all cases a
single trailing separator is appended to both display transcripts and both
pending accumulators are cleared. -/
theorem turn_complete_behavior (ek mic : Bool) (s : AppState) (t : ℤ)
    (hs : s.sessionOpen = true) (ho : s.opened = true) :
    (0 < (jsTrim s.currentInputTranscription).length →
        (step ek mic s (Ev.msg t turnCompleteMsg)).gameState = GameState.THINKING
        ∧ (step ek mic s (Ev.msg t turnCompleteMsg)).jerryReaction = "thinking")
    ∧ (step ek mic s (Ev.msg t turnCompleteMsg)).userTranscript = s.userTranscript ++ " "
    ∧ (step ek mic s (Ev.msg t turnCompleteMsg)).jerryTranscript = s.jerryTranscript ++ " "
    ∧ (step ek mic s (Ev.msg t turnCompleteMsg)).currentInputTranscription = ""
    ∧ (step ek mic s (Ev.msg t turnCompleteMsg)).currentOutputTranscription = "" := by
  by_cases h : 0 < (jsTrim s.currentInputTranscription).length <;>
    simp [step, hs, ho, onMessage, handleTranscriptionPhase, handleTurnCompletePhase, handleAudioPhase, turnCompleteMsg, h]

/-- Witness for C4 at a concrete state with pending user text. -/
theorem turn_complete_behavior_witness :
    0 < (jsTrim (run true true pendingEvs).currentInputTranscription).length
    ∧ ((step true true (run true true pendingEvs) (Ev.msg 0 turnCompleteMsg)).gameState
          = GameState.THINKING
       ∧ (step true true (run true true pendingEvs) (Ev.msg 0 turnCompleteMsg)).jerryReaction
          = "thinking") :=
  ⟨by decide,
   (turn_complete_behavior true true (run true true pendingEvs) 0
      (by decide) (by decide)).1 (by decide)⟩

/-- C5: after an interrupted event the active playback set is empty and
`nextStart` is reset to zero — not to the current device time — whatever the
prior queue depth and whatever the device time at handling. -/
theorem interrupted_flush_resets_clock (ek mic : Bool) (s : AppState) (t : ℤ)
    (hs : s.sessionOpen = true) (ho : s.opened = true) :
    (step ek mic s (Ev.msg t interruptedMsg)).audioSources = []
    ∧ (step ek mic s (Ev.msg t interruptedMsg)).nextStartTime = 0 := by
  simp [step, hs, ho, onMessage, handleTranscriptionPhase, handleTurnCompletePhase, handleAudioPhase, interruptedMsg]

/-- Witness for C5 at a concrete open-session state with queued units and a
nonzero device time. -/
theorem interrupted_flush_resets_clock_witness :
    (step true true (run true true (listenEvs ++ [Ev.msg 0 (audioMsg 2)]))
        (Ev.msg 7 interruptedMsg)).audioSources = []
    ∧ (step true true (run true true (listenEvs ++ [Ev.msg 0 (audioMsg 2)]))
        (Ev.msg 7 interruptedMsg)).nextStartTime = 0 :=
  interrupted_flush_resets_clock true true
    (run true true (listenEvs ++ [Ev.msg 0 (audioMsg 2)])) 7 (by decide) (by decide)

/-- C6 counterexample: a setJerrysReaction invocation naming the
unrecognized value "angry" is stored into ReactionState, which changes from
"mimicking" to "angry" — the value is not ignored. -/
theorem unknown_reaction_changes_state :
    (run true true listenEvs).jerryReaction = "mimicking"
    ∧ (run true true (listenEvs ++
        [Ev.msg 0 { toolCall := some [⟨"setJerrysReaction", "id1", "angry"⟩] }])).jerryReaction
        = "angry"
    ∧ ("angry" : String) ≠ "mimicking" := by decide

/-- C6 amended: a tool invocation of setJerrysReaction stores the raw
reaction string into ReactionState, recognized or not, and exactly one
acknowledgment keyed to the call id is queued within the handling of that
same event. -/
theorem tool_call_sets_raw_reaction (ek mic : Bool) (s : AppState) (t : ℤ)
    (callId r : String) (hs : s.sessionOpen = true) (ho : s.opened = true) :
    (step ek mic s
        (Ev.msg t { toolCall := some [⟨"setJerrysReaction", callId, r⟩] })).jerryReaction = r
    ∧ (step ek mic s
        (Ev.msg t { toolCall := some [⟨"setJerrysReaction", callId, r⟩] })).sentAcks
        = s.sentAcks ++ [callId] := by
  simp [step, hs, ho, onMessage, handleTranscriptionPhase, handleTurnCompletePhase, handleAudioPhase, applyFunctionCall]

/-- Witness for the amended C6 at a concrete state and an unrecognized
reaction value. -/
theorem tool_call_sets_raw_reaction_witness :
    (step true true (run true true listenEvs)
        (Ev.msg 0 { toolCall := some [⟨"setJerrysReaction", "id1", "angry"⟩] })).jerryReaction
        = "angry"
    ∧ (step true true (run true true listenEvs)
        (Ev.msg 0 { toolCall := some [⟨"setJerrysReaction", "id1", "angry"⟩] })).sentAcks
        = (run true true listenEvs).sentAcks ++ ["id1"] :=
  tool_call_sets_raw_reaction true true (run true true listenEvs) 0 "id1" "angry"
    (by decide) (by decide)

/-- C9: starting the game with a blank name or an empty age selection sets
only the validation error message; the greeting is not requested, no session
is opened, and every other component of the state is unchanged. -/
theorem start_game_validation (ek mic : Bool) (s : AppState)
    (name age : String) (mode : GameMode)
    (hpre : s.gameState = GameState.PRE_GAME)
    (hbad : jsTrim name = "" ∨ age = "") :
    step ek mic s (Ev.startGame name age mode)
      = { s with errorMsg := some "Please fill out all fields." } := by
  have hstep : step ek mic s (Ev.startGame name age mode)
      = if s.gameState = GameState.PRE_GAME then
          handleStartGame ek mic name age mode s
        else s := rfl
  rw [hstep, if_pos hpre]
  unfold handleStartGame
  rw [if_pos hbad]

/-- Witness for C9 with a whitespace-only name. -/
theorem start_game_validation_witness :
    step true true initState (Ev.startGame "   " "10-18" GameMode.AI)
      = { initState with errorMsg := some "Please fill out all fields." } :=
  start_game_validation true true initState "   " "10-18" GameMode.AI
    (by decide) (Or.inl (by decide))

/-- C10: one inbound event carrying both an output (character) and an input
(user) transcription fragment appends only the character fragment to its
pending buffer and display transcript; the user fragment of that same event
is dropped. -/
theorem simultaneous_fragments_output_only (ek mic : Bool) (s : AppState)
    (t : ℤ) (c u : String) (hs : s.sessionOpen = true) (ho : s.opened = true) :
    (step ek mic s (Ev.msg t
        { outputTranscription := some c,
          inputTranscription := some u })).currentOutputTranscription
        = s.currentOutputTranscription ++ c
    ∧ (step ek mic s (Ev.msg t
        { outputTranscription := some c,
          inputTranscription := some u })).jerryTranscript
        = s.currentOutputTranscription ++ c
    ∧ (step ek mic s (Ev.msg t
        { outputTranscription := some c,
          inputTranscription := some u })).currentInputTranscription
        = s.currentInputTranscription
    ∧ (step ek mic s (Ev.msg t
        { outputTranscription := some c,
          inputTranscription := some u })).userTranscript
        = s.userTranscript := by
  simp [step, hs, ho, onMessage, handleTranscriptionPhase, handleTurnCompletePhase, handleAudioPhase]

/-- Witness for C10 at a concrete state and fragments. -/
theorem simultaneous_fragments_output_only_witness :
    (step true true (run true true listenEvs) (Ev.msg 0
        { outputTranscription := some "hi",
          inputTranscription := some "yo" })).currentOutputTranscription
        = (run true true listenEvs).currentOutputTranscription ++ "hi"
    ∧ (step true true (run true true listenEvs) (Ev.msg 0
        { outputTranscription := some "hi",
          inputTranscription := some "yo" })).jerryTranscript
        = (run true true listenEvs).currentOutputTranscription ++ "hi"
    ∧ (step true true (run true true listenEvs) (Ev.msg 0
        { outputTranscription := some "hi",
          inputTranscription := some "yo" })).currentInputTranscription
        = (run true true listenEvs).currentInputTranscription
    ∧ (step true true (run true true listenEvs) (Ev.msg 0
        { outputTranscription := some "hi",
          inputTranscription := some "yo" })).userTranscript
        = (run true true listenEvs).userTranscript :=
  simultaneous_fragments_output_only true true (run true true listenEvs) 0 "hi" "yo"
    (by decide) (by decide)

/-- C2 counterexample: with the credential absent, a valid start intent does
NOT leave the state at PRE_GAME — the greeting catch block auto-starts the
main conversation, whose own catch block ends at IDLE. -/
theorem missing_key_state_not_pregame :
    (run false true [Ev.startGame "Alex" "10-18" GameMode.AI]).gameState = GameState.IDLE
    ∧ GameState.IDLE ≠ GameState.PRE_GAME := by decide

/-- C2 amended: with the credential absent, a valid start intent fails with
the configuration error message before any resource is acquired — the final
state holds no session, no microphone, no capture chain, no audio context —
but the state machine ends at IDLE (through a transient CONNECTING), not at
PRE_GAME. -/
theorem missing_key_configuration_error (mic : Bool) (name age : String)
    (mode : GameMode) (hn : ¬jsTrim name = "") (ha : ¬age = "") :
    (run false mic [Ev.startGame name age mode]).gameState = GameState.IDLE
    ∧ (run false mic [Ev.startGame name age mode]).errorMsg
        = some "API_KEY environment variable not set."
    ∧ (run false mic [Ev.startGame name age mode]).sessionOpen = false
    ∧ (run false mic [Ev.startGame name age mode]).micHeld = false
    ∧ (run false mic [Ev.startGame name age mode]).captureActive = false
    ∧ (run false mic [Ev.startGame name age mode]).inputCtxOpen = false
    ∧ (run false mic [Ev.startGame name age mode]).outputCtxOpen = false := by
  simp [run, step, handleStartGame, hn, ha, playGreeting, handleToggleConversation,
        stopAudioProcessing, initState]

/-- Witness for the amended C2 at the concrete scenario inputs. -/
theorem missing_key_configuration_error_witness :
    (run false true [Ev.startGame "Alex" "10-18" GameMode.AI]).gameState = GameState.IDLE
    ∧ (run false true [Ev.startGame "Alex" "10-18" GameMode.AI]).errorMsg
        = some "API_KEY environment variable not set."
    ∧ (run false true [Ev.startGame "Alex" "10-18" GameMode.AI]).sessionOpen = false
    ∧ (run false true [Ev.startGame "Alex" "10-18" GameMode.AI]).micHeld = false
    ∧ (run false true [Ev.startGame "Alex" "10-18" GameMode.AI]).captureActive = false
    ∧ (run false true [Ev.startGame "Alex" "10-18" GameMode.AI]).inputCtxOpen = false
    ∧ (run false true [Ev.startGame "Alex" "10-18" GameMode.AI]).outputCtxOpen = false :=
  missing_key_configuration_error true "Alex" "10-18" GameMode.AI
    (by decide) (by decide)

/-- C8 counterexample: after the exit intent the identity and mode selection
are NOT cleared — the state returns to PRE_GAME with userName, userAge and
gameMode still holding the values of the finished game. -/
theorem exit_keeps_identity :
    (run true true [Ev.startGame "Alex" "10-18" GameMode.MIMIC, Ev.exitGame]).gameState
        = GameState.PRE_GAME
    ∧ (run true true [Ev.startGame "Alex" "10-18" GameMode.MIMIC, Ev.exitGame]).userName
        = "Alex"
    ∧ (run true true [Ev.startGame "Alex" "10-18" GameMode.MIMIC, Ev.exitGame]).userAge
        = "10-18"
    ∧ (run true true [Ev.startGame "Alex" "10-18" GameMode.MIMIC, Ev.exitGame]).gameMode
        = GameMode.MIMIC
    ∧ ("Alex" : String) ≠ "" := by decide

/-- C8 amended: the exit intent performs the full teardown — session closed,
capture stopped, microphone released, playback units stopped and cleared,
ReactionState reset to idle, transcripts and pending buffers cleared, error
cleared — and returns to PRE_GAME, but leaves the identity (name, age) and
the mode selection unchanged. -/
theorem exit_teardown_keeps_identity (ek mic : Bool) (s : AppState)
    (hng : s.gameState ≠ GameState.PRE_GAME)
    (hsrc : s.outputCtxOpen = false → s.audioSources = []) :
    (step ek mic s Ev.exitGame).gameState = GameState.PRE_GAME
    ∧ (step ek mic s Ev.exitGame).sessionOpen = false
    ∧ (step ek mic s Ev.exitGame).captureActive = false
    ∧ (step ek mic s Ev.exitGame).micHeld = false
    ∧ (step ek mic s Ev.exitGame).audioSources = []
    ∧ (step ek mic s Ev.exitGame).jerryReaction = "idle"
    ∧ (step ek mic s Ev.exitGame).userTranscript = ""
    ∧ (step ek mic s Ev.exitGame).jerryTranscript = ""
    ∧ (step ek mic s Ev.exitGame).currentInputTranscription = ""
    ∧ (step ek mic s Ev.exitGame).currentOutputTranscription = ""
    ∧ (step ek mic s Ev.exitGame).errorMsg = none
    ∧ (step ek mic s Ev.exitGame).userName = s.userName
    ∧ (step ek mic s Ev.exitGame).userAge = s.userAge
    ∧ (step ek mic s Ev.exitGame).gameMode = s.gameMode := by
  by_cases hc : s.outputCtxOpen = true
  · simp [step, hng, handleExitGame, stopAudioProcessing, hc]
  · have h0 : s.audioSources = [] := hsrc (by simpa using hc)
    simp [step, hng, handleExitGame, stopAudioProcessing, hc, h0]

/-- Witness for the amended C8 at a concrete mid-game state. -/
theorem exit_teardown_keeps_identity_witness :
    (step true true (run true true listenEvs) Ev.exitGame).gameState = GameState.PRE_GAME
    ∧ (step true true (run true true listenEvs) Ev.exitGame).sessionOpen = false
    ∧ (step true true (run true true listenEvs) Ev.exitGame).captureActive = false
    ∧ (step true true (run true true listenEvs) Ev.exitGame).micHeld = false
    ∧ (step true true (run true true listenEvs) Ev.exitGame).audioSources = []
    ∧ (step true true (run true true listenEvs) Ev.exitGame).jerryReaction = "idle"
    ∧ (step true true (run true true listenEvs) Ev.exitGame).userTranscript = ""
    ∧ (step true true (run true true listenEvs) Ev.exitGame).jerryTranscript = ""
    ∧ (step true true (run true true listenEvs) Ev.exitGame).currentInputTranscription = ""
    ∧ (step true true (run true true listenEvs) Ev.exitGame).currentOutputTranscription = ""
    ∧ (step true true (run true true listenEvs) Ev.exitGame).errorMsg = none
    ∧ (step true true (run true true listenEvs) Ev.exitGame).userName
        = (run true true listenEvs).userName
    ∧ (step true true (run true true listenEvs) Ev.exitGame).userAge
        = (run true true listenEvs).userAge
    ∧ (step true true (run true true listenEvs) Ev.exitGame).gameMode
        = (run true true listenEvs).gameMode :=
  exit_teardown_keeps_identity true true (run true true listenEvs)
    (by decide) (by decide)

/-- C3 counterexample: a transport error moves a state with reaction
"laughing" to IDLE without resetting ReactionState to idle, so the
transition to IDLE does not perform the full teardown the claim states. -/
theorem transport_error_skips_reaction_reset :
    (run true true (listenEvs ++
        [Ev.msg 0 { toolCall := some [⟨"setJerrysReaction", "id2", "laughing"⟩] },
         Ev.errorEv])).gameState = GameState.IDLE
    ∧ (run true true (listenEvs ++
        [Ev.msg 0 { toolCall := some [⟨"setJerrysReaction", "id2", "laughing"⟩] },
         Ev.errorEv])).jerryReaction = "laughing"
    ∧ ("laughing" : String) ≠ "idle" := by decide

/-- C3 amended: every transition to IDLE stops the capture pipeline,
releases the microphone, stops and clears all playback units and closes the
session; but only the explicit user stop intent additionally resets
ReactionState to idle and clears the display transcripts and pending
buffers — transport error and transport close leave ReactionState and the
transcripts unchanged. -/
theorem idle_teardown_amended (ek mic : Bool) (s : AppState)
    (hsrc : s.outputCtxOpen = false → s.audioSources = []) :
    (s.gameState ≠ GameState.PRE_GAME → s.gameState ≠ GameState.IDLE →
      (step ek mic s Ev.toggle).gameState = GameState.IDLE
      ∧ (step ek mic s Ev.toggle).sessionOpen = false
      ∧ (step ek mic s Ev.toggle).captureActive = false
      ∧ (step ek mic s Ev.toggle).micHeld = false
      ∧ (step ek mic s Ev.toggle).audioSources = []
      ∧ (step ek mic s Ev.toggle).jerryReaction = "idle"
      ∧ (step ek mic s Ev.toggle).userTranscript = ""
      ∧ (step ek mic s Ev.toggle).jerryTranscript = ""
      ∧ (step ek mic s Ev.toggle).currentInputTranscription = ""
      ∧ (step ek mic s Ev.toggle).currentOutputTranscription = "")
    ∧ (s.sessionOpen = true →
      (step ek mic s Ev.errorEv).gameState = GameState.IDLE
      ∧ (step ek mic s Ev.errorEv).sessionOpen = false
      ∧ (step ek mic s Ev.errorEv).captureActive = false
      ∧ (step ek mic s Ev.errorEv).micHeld = false
      ∧ (step ek mic s Ev.errorEv).audioSources = []
      ∧ (step ek mic s Ev.errorEv).jerryReaction = s.jerryReaction
      ∧ (step ek mic s Ev.errorEv).userTranscript = s.userTranscript
      ∧ (step ek mic s Ev.errorEv).jerryTranscript = s.jerryTranscript
      ∧ (step ek mic s Ev.errorEv).currentInputTranscription = s.currentInputTranscription
      ∧ (step ek mic s Ev.errorEv).currentOutputTranscription = s.currentOutputTranscription)
    ∧ (s.sessionOpen = true →
      (step ek mic s Ev.closeEv).gameState = GameState.IDLE
      ∧ (step ek mic s Ev.closeEv).sessionOpen = false
      ∧ (step ek mic s Ev.closeEv).captureActive = false
      ∧ (step ek mic s Ev.closeEv).micHeld = false
      ∧ (step ek mic s Ev.closeEv).audioSources = []
      ∧ (step ek mic s Ev.closeEv).jerryReaction = s.jerryReaction
      ∧ (step ek mic s Ev.closeEv).userTranscript = s.userTranscript
      ∧ (step ek mic s Ev.closeEv).jerryTranscript = s.jerryTranscript
      ∧ (step ek mic s Ev.closeEv).currentInputTranscription = s.currentInputTranscription
      ∧ (step ek mic s Ev.closeEv).currentOutputTranscription = s.currentOutputTranscription) := by
  by_cases hc : s.outputCtxOpen = true
  · refine ⟨fun hng hni => ?_, fun hs => ?_, fun hs => ?_⟩ <;>
      simp_all [step, handleToggleConversation, onError, onClose, stopAudioProcessing]
  · have h0 : s.audioSources = [] := hsrc (by simpa using hc)
    refine ⟨fun hng hni => ?_, fun hs => ?_, fun hs => ?_⟩ <;>
      simp_all [step, handleToggleConversation, onError, onClose, stopAudioProcessing]

/-- Witness for the amended C3: a transport error at a concrete mid-game
state tears resources down and keeps the reaction. -/
theorem idle_teardown_amended_witness :
    (step true true (run true true listenEvs) Ev.errorEv).gameState = GameState.IDLE
    ∧ (step true true (run true true listenEvs) Ev.errorEv).sessionOpen = false
    ∧ (step true true (run true true listenEvs) Ev.errorEv).captureActive = false
    ∧ (step true true (run true true listenEvs) Ev.errorEv).micHeld = false
    ∧ (step true true (run true true listenEvs) Ev.errorEv).audioSources = []
    ∧ (step true true (run true true listenEvs) Ev.errorEv).jerryReaction
        = (run true true listenEvs).jerryReaction
    ∧ (step true true (run true true listenEvs) Ev.errorEv).userTranscript
        = (run true true listenEvs).userTranscript
    ∧ (step true true (run true true listenEvs) Ev.errorEv).jerryTranscript
        = (run true true listenEvs).jerryTranscript
    ∧ (step true true (run true true listenEvs) Ev.errorEv).currentInputTranscription
        = (run true true listenEvs).currentInputTranscription
    ∧ (step true true (run true true listenEvs) Ev.errorEv).currentOutputTranscription
        = (run true true listenEvs).currentOutputTranscription :=
  (idle_teardown_amended true true (run true true listenEvs) (by decide)).2.1 (by decide)

/-- Field facts about the transcription phase: it touches only the
transcript fields. -/
theorem handleTranscriptionPhase_fields (m : ServerMessage) (s : AppState) :
    (handleTranscriptionPhase m s).sessionOpen = s.sessionOpen
    ∧ (handleTranscriptionPhase m s).opened = s.opened
    ∧ (handleTranscriptionPhase m s).outputCtxOpen = s.outputCtxOpen
    ∧ (handleTranscriptionPhase m s).captureActive = s.captureActive
    ∧ (handleTranscriptionPhase m s).micHeld = s.micHeld
    ∧ (handleTranscriptionPhase m s).gameState = s.gameState
    ∧ (handleTranscriptionPhase m s).audioSources = s.audioSources := by
  unfold handleTranscriptionPhase
  cases hot : m.outputTranscription <;> cases hit : m.inputTranscription <;> simp

/-- Field facts about the turn-completion phase: flags and the active set
are untouched and the state machine either stays or moves to THINKING. -/
theorem handleTurnCompletePhase_fields (m : ServerMessage) (s : AppState) :
    (handleTurnCompletePhase m s).sessionOpen = s.sessionOpen
    ∧ (handleTurnCompletePhase m s).opened = s.opened
    ∧ (handleTurnCompletePhase m s).outputCtxOpen = s.outputCtxOpen
    ∧ (handleTurnCompletePhase m s).captureActive = s.captureActive
    ∧ (handleTurnCompletePhase m s).micHeld = s.micHeld
    ∧ ((handleTurnCompletePhase m s).gameState = s.gameState
        ∨ (handleTurnCompletePhase m s).gameState = GameState.THINKING)
    ∧ (handleTurnCompletePhase m s).audioSources = s.audioSources := by
  unfold handleTurnCompletePhase
  cases htc : m.turnComplete <;> split_ifs <;> simp

/-- Field facts about the audio-delta and interruption phase: flags are
untouched; the state machine stays unless an audio delta sets TALKING; no
source is created while the output context is closed. -/
theorem handleAudioPhase_fields (t : ℤ) (m : ServerMessage) (s : AppState) :
    (handleAudioPhase t m s).sessionOpen = s.sessionOpen
    ∧ (handleAudioPhase t m s).opened = s.opened
    ∧ (handleAudioPhase t m s).outputCtxOpen = s.outputCtxOpen
    ∧ (handleAudioPhase t m s).captureActive = s.captureActive
    ∧ (handleAudioPhase t m s).micHeld = s.micHeld
    ∧ ((handleAudioPhase t m s).gameState = s.gameState
        ∨ (handleAudioPhase t m s).gameState = GameState.TALKING)
    ∧ ((handleAudioPhase t m s).gameState = GameState.TALKING
        ∧ s.gameState ≠ GameState.TALKING → m.audioDur.isSome = true)
    ∧ (s.outputCtxOpen = false →
        ((handleAudioPhase t m s).audioSources = s.audioSources
          ∨ (handleAudioPhase t m s).audioSources = [])) := by
  unfold handleAudioPhase
  cases had : m.audioDur <;> cases hint : m.interrupted <;>
    by_cases hoc : s.outputCtxOpen = true <;> simp_all

/-- Field facts about one `onmessage` dispatch: the session, capture and
context flags are untouched; the state machine can only stay, move to
THINKING (turn completion) or to TALKING (audio delta); TALKING is reached
only when it already held or the message carries an audio delta; and no
playback source is created while the output context is closed. -/
theorem onMessage_fields (t : ℤ) (m : ServerMessage) (s : AppState) :
    (onMessage t m s).sessionOpen = s.sessionOpen
    ∧ (onMessage t m s).opened = s.opened
    ∧ (onMessage t m s).outputCtxOpen = s.outputCtxOpen
    ∧ (onMessage t m s).captureActive = s.captureActive
    ∧ (onMessage t m s).micHeld = s.micHeld
    ∧ ((onMessage t m s).gameState = s.gameState
        ∨ (onMessage t m s).gameState = GameState.THINKING
        ∨ (onMessage t m s).gameState = GameState.TALKING)
    ∧ ((onMessage t m s).gameState = GameState.TALKING →
        s.gameState = GameState.TALKING ∨ m.audioDur.isSome = true)
    ∧ (s.outputCtxOpen = false →
        ((onMessage t m s).audioSources = s.audioSources
          ∨ (onMessage t m s).audioSources = [])) := by
  obtain ⟨r, a, hfc⟩ := foldl_applyFunctionCall_shape (m.toolCall.getD []) s
  have h1 := handleTranscriptionPhase_fields m { s with jerryReaction := r, sentAcks := a }
  have h2 := handleTurnCompletePhase_fields m
    (handleTranscriptionPhase m { s with jerryReaction := r, sentAcks := a })
  have h3 := handleAudioPhase_fields t m
    (handleTurnCompletePhase m
      (handleTranscriptionPhase m { s with jerryReaction := r, sentAcks := a }))
  unfold onMessage
  rw [hfc]
  obtain ⟨h1a, h1b, h1c, h1d, h1e, h1f, h1g⟩ := h1
  obtain ⟨h2a, h2b, h2c, h2d, h2e, h2f, h2g⟩ := h2
  obtain ⟨h3a, h3b, h3c, h3d, h3e, h3f, h3g, h3h⟩ := h3
  refine ⟨?_, ?_, ?_, ?_, ?_, ?_, ?_, ?_⟩
  · rw [h3a, h2a, h1a]
  · rw [h3b, h2b, h1b]
  · rw [h3c, h2c, h1c]
  · rw [h3d, h2d, h1d]
  · rw [h3e, h2e, h1e]
  · rcases h3f with h | h
    · rw [h]
      rcases h2f with h' | h'
      · rw [h', h1f]
        left
        rfl
      · rw [h']
        right
        left
        rfl
    · right
      right
      exact h
  · intro htk
    by_cases hin : (handleTurnCompletePhase m
        (handleTranscriptionPhase m { s with jerryReaction := r, sentAcks := a })).gameState
          = GameState.TALKING
    · rcases h2f with h' | h'
      · rw [h', h1f] at hin
        exact Or.inl hin
      · rw [h'] at hin
        exact absurd hin (by simp)
    · exact Or.inr (h3g ⟨htk, hin⟩)
  · intro hout
    have hout' : (handleTurnCompletePhase m
        (handleTranscriptionPhase m { s with jerryReaction := r, sentAcks := a })).outputCtxOpen
          = false := by
      rw [h2c, h1c]
      exact hout
    rcases h3h hout' with h | h
    · left
      rw [h, h2g, h1g]
    · right
      exact h

/-- Inductive invariant of the event loop: while the session is open and the
transport has reported open, the state machine is in an in-conversation
state (LISTENING, THINKING or TALKING); and playback sources exist only
while the output context is live. -/
def Inv (s : AppState) : Prop :=
  (s.sessionOpen = true → s.opened = true →
      s.gameState = GameState.LISTENING ∨ s.gameState = GameState.THINKING
      ∨ s.gameState = GameState.TALKING)
  ∧ (s.outputCtxOpen = false → s.audioSources = [])

theorem inv_initState : Inv initState :=
  ⟨fun ha _ => absurd ha (by decide), fun _ => rfl⟩

/-- The invariant is preserved by every event dispatch. -/
theorem inv_step (ek mic : Bool) (s : AppState) (e : Ev) (h : Inv s) :
    Inv (step ek mic s e) := by
  obtain ⟨h1, h2⟩ := h
  cases e with
  | startGame name age mode =>
      unfold step handleStartGame playGreeting handleToggleConversation stopAudioProcessing
      dsimp only
      split_ifs <;> refine ⟨fun ha hb => ?_, fun hc => ?_⟩ <;> simp_all
  | greetingDone =>
      unfold step handleToggleConversation stopAudioProcessing
      dsimp only
      split_ifs <;> refine ⟨fun ha hb => ?_, fun hc => ?_⟩ <;> simp_all
  | toggle =>
      unfold step handleToggleConversation stopAudioProcessing
      dsimp only
      split_ifs <;> refine ⟨fun ha hb => ?_, fun hc => ?_⟩ <;> simp_all
  | exitGame =>
      unfold step handleExitGame stopAudioProcessing
      dsimp only
      split_ifs <;> refine ⟨fun ha hb => ?_, fun hc => ?_⟩ <;> simp_all
  | connected =>
      unfold step onOpen
      dsimp only
      split_ifs <;> refine ⟨fun ha hb => ?_, fun hc => ?_⟩ <;> simp_all
  | sourceEnded id =>
      unfold step onSourceEnded
      dsimp only
      split_ifs <;> refine ⟨fun ha hb => ?_, fun hc => ?_⟩ <;> simp_all
  | errorEv =>
      unfold step onError stopAudioProcessing
      dsimp only
      split_ifs <;> refine ⟨fun ha hb => ?_, fun hc => ?_⟩ <;> simp_all
  | closeEv =>
      unfold step onClose stopAudioProcessing
      dsimp only
      split_ifs <;> refine ⟨fun ha hb => ?_, fun hc => ?_⟩ <;> simp_all
  | msg t m =>
      by_cases hg : s.sessionOpen = true ∧ s.opened = true
      · have hstep : step ek mic s (Ev.msg t m) = onMessage t m s := by
          simp [step, hg.1, hg.2]
        obtain ⟨hf1, hf2, hf3, _, _, hf6, _, hf8⟩ := onMessage_fields t m s
        rw [hstep]
        refine ⟨fun ha hb => ?_, fun hc => ?_⟩
        · rcases hf6 with hh | hh | hh
          · rw [hh]
            exact h1 hg.1 hg.2
          · rw [hh]
            right; left; rfl
          · rw [hh]
            right; right; rfl
        · rw [hf3] at hc
          rcases hf8 hc with hh | hh
          · rw [hh]
            exact h2 hc
          · exact hh
      · have hstep : step ek mic s (Ev.msg t m) = s := by
          rw [show step ek mic s (Ev.msg t m)
              = if s.sessionOpen ∧ s.opened then onMessage t m s else s from rfl]
          rw [if_neg]
          simpa using hg
        rw [hstep]
        exact ⟨h1, h2⟩

/-- The invariant holds in every reachable state. -/
theorem inv_run (ek mic : Bool) (evs : List Ev) : Inv (run ek mic evs) := by
  have haux : ∀ s, Inv s → Inv (evs.foldl (step ek mic) s) := by
    induction evs with
    | nil => exact fun s hs => hs
    | cons e rest ih => exact fun s hs => ih _ (inv_step ek mic s e hs)
  exact haux initState inv_initState

/-- Entry facts for one dispatch from a state satisfying the invariant:
TALKING is entered only from LISTENING or THINKING on an audio-delta
message, and a dispatch that lands in IDLE that was not already there has
torn down session, capture, microphone and playback set. -/
theorem step_entry (ek mic : Bool) (s : AppState) (e : Ev) (h : Inv s) :
    ((step ek mic s e).gameState = GameState.TALKING →
        s.gameState = GameState.TALKING ∨
        ((s.gameState = GameState.LISTENING ∨ s.gameState = GameState.THINKING)
          ∧ isAudioDelta e = true))
    ∧ ((step ek mic s e).gameState = GameState.IDLE →
        s.gameState = GameState.IDLE ∨
        ((step ek mic s e).sessionOpen = false
          ∧ (step ek mic s e).captureActive = false
          ∧ (step ek mic s e).micHeld = false
          ∧ (step ek mic s e).audioSources = [])) := by
  obtain ⟨h1, h2⟩ := h
  cases e with
  | msg t m =>
      by_cases hg : s.sessionOpen = true ∧ s.opened = true
      · have hstep : step ek mic s (Ev.msg t m) = onMessage t m s := by
          simp [step, hg.1, hg.2]
        obtain ⟨hf1, hf2, hf3, hf4, hf5, hf6, hf7, hf8⟩ := onMessage_fields t m s
        rw [hstep]
        constructor
        · intro htk
          rcases hf7 htk with hh | hh
          · exact Or.inl hh
          · rcases h1 hg.1 hg.2 with hx | hx | hx
            · exact Or.inr ⟨Or.inl hx, by simp [isAudioDelta, hh]⟩
            · exact Or.inr ⟨Or.inr hx, by simp [isAudioDelta, hh]⟩
            · exact Or.inl hx
        · intro hid
          left
          rcases hf6 with hh | hh | hh
          · rw [← hh]
            exact hid
          · rw [hh] at hid
            simp at hid
          · rw [hh] at hid
            simp at hid
      · have hstep : step ek mic s (Ev.msg t m) = s := by
          rw [show step ek mic s (Ev.msg t m)
              = if s.sessionOpen ∧ s.opened then onMessage t m s else s from rfl]
          rw [if_neg]
          simpa using hg
        rw [hstep]
        exact ⟨fun htk => Or.inl htk, fun hid => Or.inl hid⟩
  | startGame name age mode =>
      unfold step handleStartGame playGreeting handleToggleConversation stopAudioProcessing
      dsimp only
      split_ifs <;> refine ⟨fun htk => ?_, fun hid => ?_⟩ <;> simp_all
  | greetingDone =>
      unfold step handleToggleConversation stopAudioProcessing
      dsimp only
      split_ifs <;> refine ⟨fun htk => ?_, fun hid => ?_⟩ <;> simp_all
  | toggle =>
      unfold step handleToggleConversation stopAudioProcessing
      dsimp only
      split_ifs <;> refine ⟨fun htk => ?_, fun hid => ?_⟩ <;> simp_all
  | exitGame =>
      unfold step handleExitGame stopAudioProcessing
      dsimp only
      split_ifs <;> refine ⟨fun htk => ?_, fun hid => ?_⟩ <;> simp_all
  | connected =>
      unfold step onOpen
      dsimp only
      split_ifs <;> refine ⟨fun htk => ?_, fun hid => ?_⟩ <;> simp_all
  | sourceEnded id =>
      unfold step onSourceEnded
      dsimp only
      split_ifs <;> refine ⟨fun htk => ?_, fun hid => ?_⟩ <;> simp_all
  | errorEv =>
      unfold step onError stopAudioProcessing
      dsimp only
      split_ifs <;> refine ⟨fun htk => ?_, fun hid => ?_⟩ <;> simp_all
  | closeEv =>
      unfold step onClose stopAudioProcessing
      dsimp only
      split_ifs <;> refine ⟨fun htk => ?_, fun hid => ?_⟩ <;> simp_all

/-- C7: in every reachable execution of the event loop, TALKING is entered
only by a direct transition from LISTENING or THINKING caused by an
audio-delta message, and a transition that enters IDLE always leaves the
session closed, the capture pipeline stopped, the microphone released and
the playback set empty — no transition into IDLE skips the teardown. -/
theorem talking_idle_entry (ek mic : Bool) (evs : List Ev) (e : Ev) :
    ((step ek mic (run ek mic evs) e).gameState = GameState.TALKING →
        (run ek mic evs).gameState = GameState.TALKING ∨
        (((run ek mic evs).gameState = GameState.LISTENING
            ∨ (run ek mic evs).gameState = GameState.THINKING)
          ∧ isAudioDelta e = true))
    ∧ ((step ek mic (run ek mic evs) e).gameState = GameState.IDLE →
        (run ek mic evs).gameState = GameState.IDLE ∨
        ((step ek mic (run ek mic evs) e).sessionOpen = false
          ∧ (step ek mic (run ek mic evs) e).captureActive = false
          ∧ (step ek mic (run ek mic evs) e).micHeld = false
          ∧ (step ek mic (run ek mic evs) e).audioSources = [])) :=
  step_entry ek mic (run ek mic evs) e (inv_run ek mic evs)

/-- Witness for C7: a concrete audio delta in LISTENING enters TALKING. -/
theorem talking_idle_entry_witness :
    (run true true listenEvs).gameState = GameState.TALKING
    ∨ (((run true true listenEvs).gameState = GameState.LISTENING
        ∨ (run true true listenEvs).gameState = GameState.THINKING)
      ∧ isAudioDelta (Ev.msg 0 (audioMsg 1)) = true) :=
  (talking_idle_entry true true listenEvs (Ev.msg 0 (audioMsg 1))).1 (by decide)

end TalkingJerry
